import Mathlib

/-
  Verification development for the DICOM hierarchy / lazy pixel-access layer
  (`pumpia/file_handling/dicom_structures.py`).

  The Python classes Patient, Study, Series and Instance are shallowly embedded
  as Lean structures; their mutating methods become state-passing functions and
  Python exceptions become `Except PyErr`.  Numbers are modelled by `ℚ` (Python
  floats and ints; widening an integer array to float is therefore the identity
  `NpArr.astype`).  External collaborators are modelled as follows:
  * the tag resolver (`pumpia.file_handling.dicom_tags.get_tag`, not under src/)
    resolves a tag against a `Dataset` and raises `KeyError` when it is absent,
    as the spec's "Tag Resolver ... fails if tag absent" prescribes;
  * the dataset decoder `pydicom.dcmread` is modelled as total: every file
    field already holds its decoded `Dataset` (decode failures are outside the
    claims under study);
  * the colour-space converter `convert_color_space` is passed as an explicit
    function argument `ccs` to the `array` accessors;
  * the base image-collection classes (`ImageCollection`, `FileImageSet`, not
    under src/) contribute, as modelled from the spec: `num_slices` is the
    first component of `shape`, `current_slice` is a plain state field, and the
    intensity-range-derived window/level defaults are the `base_vmax`,
    `base_vmin`, `base_window`, `base_level` fields.
-/

namespace Pumpia

/-- Python exceptions that the embedded code can raise or catch.
`recursionError` stands for the unbounded recursion a frame-view child inside a
non-stack concatenation branch would cause in Python. -/
inductive PyErr
  | keyError
  | indexError
  | typeError
  | valueError
  | notImplementedError
  | fileNotFoundError
  | recursionError
deriving DecidableEq, Repr

instance {ε α : Type} [DecidableEq ε] [DecidableEq α] : DecidableEq (Except ε α) := fun a b =>
  match a, b with
  | .ok x, .ok y => if h : x = y then .isTrue (by rw [h]) else .isFalse (by simp [h])
  | .error x, .error y => if h : x = y then .isTrue (by rw [h]) else .isFalse (by simp [h])
  | .ok _, .error _ => .isFalse (by simp)
  | .error _, .ok _ => .isFalse (by simp)

/-- Value of a resolved DICOM tag: a number, a string, or a sequence of
numbers (e.g. PixelSpacing).  Numeric strings are not modelled: `float` of a
`str` value is uniformly a `ValueError` here. -/
inductive TagValue
  | num (q : ℚ)
  | str (s : String)
  | pair (xs : List ℚ)
deriving DecidableEq, Repr

/-- A numpy array of dimension 0 to 4 with rational entries.  The operations
below implement exactly the numpy primitives the source uses. -/
inductive NpArr
  | d0 (q : ℚ)
  | d1 (a : List ℚ)
  | d2 (a : List (List ℚ))
  | d3 (a : List (List (List ℚ)))
  | d4 (a : List (List (List (List ℚ))))
deriving DecidableEq, Repr

/-- Models `np.astype(a, float)`: in this `ℚ`-valued model widening an integer
array to float is the identity. -/
def NpArr.astype (a : NpArr) : NpArr := a

/-- Elementwise `a * slope + intercept` (numpy broadcasting of two scalars). -/
def NpArr.scale (a : NpArr) (sl ic : ℚ) : NpArr :=
  match a with
  | .d0 q => .d0 (q * sl + ic)
  | .d1 v => .d1 (v.map (fun q => q * sl + ic))
  | .d2 v => .d2 (v.map (List.map (fun q => q * sl + ic)))
  | .d3 v => .d3 (v.map (List.map (List.map (fun q => q * sl + ic))))
  | .d4 v => .d4 (v.map (List.map (List.map (List.map (fun q => q * sl + ic)))))

/-- Models `np.array([a])`: wrapping adds one leading axis.  Five-dimensional
results are outside this model. -/
def npWrap (a : NpArr) : Except PyErr NpArr :=
  match a with
  | .d0 q => .ok (.d1 [q])
  | .d1 v => .ok (.d2 [v])
  | .d2 v => .ok (.d3 [v])
  | .d3 v => .ok (.d4 [v])
  | .d4 _ => .error .notImplementedError

/-- Resolves a Python index `i` (negative indices count from the end) against a
list of length `n`. -/
def pyIdx (n : Nat) (i : Int) : Option Nat :=
  let j : Int := if i < 0 then i + n else i
  if 0 ≤ j ∧ j < n then some j.toNat else none

/-- Python-style subscripting `a[i]` of a numpy array along the first axis. -/
def NpArr.pyIndex (a : NpArr) (i : Int) : Except PyErr NpArr :=
  match a with
  | .d0 _ => .error .typeError
  | .d1 v =>
    match (pyIdx v.length i).bind v.get? with
    | some x => .ok (.d0 x)
    | none => .error .indexError
  | .d2 v =>
    match (pyIdx v.length i).bind v.get? with
    | some x => .ok (.d1 x)
    | none => .error .indexError
  | .d3 v =>
    match (pyIdx v.length i).bind v.get? with
    | some x => .ok (.d2 x)
    | none => .error .indexError
  | .d4 v =>
    match (pyIdx v.length i).bind v.get? with
    | some x => .ok (.d3 x)
    | none => .error .indexError

/-- Collects the rows of a list of one-dimensional arrays, if homogeneous. -/
def topsD1 : List NpArr → Option (List ℚ)
  | [] => some []
  | .d1 a :: r => (topsD1 r).map (a ++ ·)
  | _ => none

/-- Collects the rows of a list of two-dimensional arrays, if homogeneous. -/
def topsD2 : List NpArr → Option (List (List ℚ))
  | [] => some []
  | .d2 a :: r => (topsD2 r).map (a ++ ·)
  | _ => none

/-- Collects the slices of a list of three-dimensional arrays, if homogeneous. -/
def topsD3 : List NpArr → Option (List (List (List ℚ)))
  | [] => some []
  | .d3 a :: r => (topsD3 r).map (a ++ ·)
  | _ => none

/-- Collects the blocks of a list of four-dimensional arrays, if homogeneous. -/
def topsD4 : List NpArr → Option (List (List (List (List ℚ))))
  | [] => some []
  | .d4 a :: r => (topsD4 r).map (a ++ ·)
  | _ => none

/-- Models `np.concatenate(xs)` along the first axis.  An empty sequence
raises `ValueError` ("need at least one array to concatenate"), as do
zero-dimensional or mixed-dimension inputs. -/
def npConcat (xs : List NpArr) : Except PyErr NpArr :=
  match xs with
  | [] => .error .valueError
  | _ =>
    match topsD1 xs with
    | some t => .ok (.d1 t)
    | none =>
      match topsD2 xs with
      | some t => .ok (.d2 t)
      | none =>
        match topsD3 xs with
        | some t => .ok (.d3 t)
        | none =>
          match topsD4 xs with
          | some t => .ok (.d4 t)
          | none => .error .valueError

/-- Models `np.zeros((1, 1, 1))`. -/
def npZeros111 : NpArr := .d3 [[[0]]]

/- Tag identifiers used by the source (a model of the `DicomTags` constants). -/
namespace DicomTags

def SamplesPerPixel : Nat := 0

def RescaleSlope : Nat := 1

def RescaleIntercept : Nat := 2

def PhotometricInterpretation : Nat := 3

def WindowWidth : Nat := 4

def WindowCenter : Nat := 5

def PixelSpacing : Nat := 6

def SliceThickness : Nat := 7

end DicomTags

/-- A decoded `pydicom.Dataset`: top-level tag values, per-frame tag values
(for multi-frame files, keyed by frame number and tag), and the pixel array. -/
structure Dataset where
  tags : List (Nat × TagValue)
  frameTags : List ((Int × Nat) × TagValue)
  pixel_array : NpArr
deriving DecidableEq

/-- Models the external tag resolver `get_tag(dataset, tag).value`: the value
when the tag is present, `KeyError` otherwise. -/
def Dataset.resolve (ds : Dataset) (t : Nat) : Except PyErr TagValue :=
  match ds.tags.find? (fun p => p.1 = t) with
  | some p => .ok p.2
  | none => .error .keyError

/-- Models the external tag resolver `get_tag(dataset, tag, frame).value` for a
frame-indexed lookup. -/
def Dataset.resolveFrame (ds : Dataset) (t : Nat) (fn : Int) : Except PyErr TagValue :=
  match ds.frameTags.find? (fun p => p.1.1 = fn ∧ p.1.2 = t) with
  | some p => .ok p.2
  | none => .error .keyError

/-- Python `value / 2` followed by `center + ·` as in the `vmax` accessors:
defined when both values are numbers, `TypeError` otherwise. -/
def tvAddHalf (wc ww : TagValue) : Except PyErr ℚ :=
  match wc, ww with
  | .num c, .num w => .ok (c + w / 2)
  | _, _ => .error .typeError

/-- Python `center - width / 2` as in the `vmin` accessors. -/
def tvSubHalf (wc ww : TagValue) : Except PyErr ℚ :=
  match wc, ww with
  | .num c, .num w => .ok (c - w / 2)
  | _, _ => .error .typeError

/-- Python `float(value)`: numbers convert, sequences raise `TypeError`,
(non-numeric) strings raise `ValueError`. -/
def floatConv (v : TagValue) : Except PyErr ℚ :=
  match v with
  | .num q => .ok q
  | .pair _ => .error .typeError
  | .str _ => .error .valueError

/-- Python `value[n]` on a tag value: sequences index (IndexError when out of
range), strings yield one-character strings, numbers raise `TypeError`. -/
def TagValue.subscript (v : TagValue) (n : Nat) : Except PyErr TagValue :=
  match v with
  | .pair xs =>
    match xs.get? n with
    | some q => .ok (.num q)
    | none => .error .indexError
  | .num _ => .error .typeError
  | .str s =>
    match s.toList.get? n with
    | some c => .ok (.str (String.mk [c]))
    | none => .error .indexError

/-- Python object model of `Patient` (lines 23-114).  The `_studies` set only
matters for membership operations that no claim exercises, so it is omitted
here; `patient_id` and `name` are the constructor-stored strings. -/
structure Patient where
  patient_id : String
  name : String
deriving DecidableEq

/-- Models `Patient.id_string` (lines 85-88): `"DICOM : " + patient_id`. -/
def Patient.id_string (p : Patient) : String := "DICOM : " ++ p.patient_id

/-- Python object model of `Study` (lines 117-223), identity-relevant fields
only (the owned series set is not needed by any claim). `study_date` is an
ordinal day number. -/
structure Study where
  patient : Patient
  study_id : String
  study_date : Int
  study_description : String
deriving DecidableEq

/-- Models `Study.id_string` (lines 194-197). -/
def Study.id_string (st : Study) : String := st.patient.id_string ++ " : " ++ st.study_id

/-- Identity fields of a `Series` node, as used by `Series.id_string` and
`Series.__eq__` (lines 328-354). -/
structure SeriesNode where
  study : Study
  series_id : String
  series_number : Int
  acquisition_number : Int
deriving DecidableEq

/-- Models `Series.id_string` (lines 348-350). -/
def SeriesNode.id_string (sn : SeriesNode) : String :=
  sn.study.id_string ++ " : " ++ sn.series_id ++ "-" ++ toString sn.acquisition_number

/-- Identity fields of an `Instance` node, as used by `Instance.id_string`,
`Instance.__str__` and `Instance.__eq__` (lines 740-767). -/
structure InstanceNode where
  series : SeriesNode
  instance_number : Int
  is_frame : Bool
  frame_number : Option Int
deriving DecidableEq

/-- Models `Instance.__str__` (lines 750-754): the frame number for a frame,
the instance number otherwise.  Python prints `str(None)` as `"None"`. -/
def InstanceNode.strRep (i : InstanceNode) : String :=
  if i.is_frame then
    match i.frame_number with
    | some fn => toString fn
    | none => "None"
  else toString i.instance_number

/-- Models `Instance.id_string` (lines 761-763). -/
def InstanceNode.id_string (i : InstanceNode) : String :=
  i.series.id_string ++ " : " ++ i.strRep

/-- The kinds of value a Python `__eq__` can receive from the claims: another
node, a string, an integer, or anything else. -/
inductive EqArg
  | patient (p : Patient)
  | study (st : Study)
  | seriesN (sn : SeriesNode)
  | instanceN (i : InstanceNode)
  | str (s : String)
  | int (n : Int)
  | other

/-- Models `Patient.__eq__` (lines 57-78).  Python's randomized string hash is
an arbitrary function `hf`; `hash(self)` is `hf(id_string)` (lines 54-55). -/
def Patient.eqPy (hf : String → Int) (p : Patient) : EqArg → Bool
  | .patient q => p.patient_id == q.patient_id
  | .str s => p.id_string == s
  | .int n => hf p.id_string == n
  | _ => false

/-- Models `Study.__eq__` (lines 167-188): note that only `study_id` is
compared for two studies; `hash(self)` is `hf(id_string)` (lines 164-165). -/
def Study.eqPy (hf : String → Int) (st : Study) : EqArg → Bool
  | .study other => st.study_id == other.study_id
  | .str s => st.id_string == s
  | .int n => hf st.id_string == n
  | _ => false

/-- Models the string and integer modes of `Series.__eq__` (lines 328-336);
series-to-series comparison is by `hash`, i.e. by `hf` applied to `id_string`
(line 330 with the `FileImageSet` hash modelled from the spec as an
identity-string hash). -/
def SeriesNode.eqPy (hf : String → Int) (sn : SeriesNode) : EqArg → Bool
  | .seriesN other => hf sn.id_string == hf other.id_string
  | .str s => sn.id_string == s
  | .int n => hf sn.id_string == n
  | _ => false

/-- Models the string and integer modes of `Instance.__eq__` (lines 740-748). -/
def InstanceNode.eqPy (hf : String → Int) (i : InstanceNode) : EqArg → Bool
  | .instanceN other => hf i.id_string == hf other.id_string
  | .str s => i.id_string == s
  | .int n => hf i.id_string == n
  | _ => false

/-- Mutable state of one `Instance` object (lines 650-949).  A standalone
instance owns `file` (the decoded content of its `filepath`; decoding is
modelled as always succeeding) and caches it in `dicom` while loaded.  A frame
instance has no payload of its own; where Python follows the back-reference to
the owning `Series`, this model provides `Series.frame_*` functions instead.
`uid` is the identity under which the instance lives in the owning series'
`_image_set` hash set.  The `base_*` fields are the intensity-range-derived
defaults that the `FileImageSet` base class supplies (modelled from the spec:
"Base Image Collection ... intensity-range-derived window-level"). -/
structure Instance where
  uid : Nat
  instance_number : Int
  is_frame : Bool
  frame_number : Option Int
  file : Dataset
  loaded : Bool
  dicom : Option Dataset
  height : Nat
  width : Nat
  is_multisample : Bool
  is_rgb : Bool
  base_vmax : Option ℚ
  base_vmin : Option ℚ
  base_window : Option ℚ
  base_level : Option ℚ
deriving DecidableEq

/-- Modelled from the spec: the base `FileImageSet` normalises an instance's
shape to `(slice_count, height, width)` with one slice, which is what
`instance.shape[1]` / `instance.shape[2]` read in `Series.add_instance`. -/
def Instance.shape (i : Instance) : Nat × Nat × Nat := (1, i.height, i.width)

/-- Models `Instance.sort_value` (lines 769-775). -/
def Instance.sort_value (i : Instance) : Int :=
  match i.frame_number with
  | some fn => if i.is_frame then fn else i.instance_number
  | none => i.instance_number

/-- Models the standalone branch of `Instance.load` (lines 933-940):
`self._dicom = dcmread(self.filepath)` then `self.loaded = True`.  The frame
branch (`self.series.load()`) is `Series.frame_load`. -/
def Instance.load (i : Instance) : Instance :=
  if i.loaded then i else { i with dicom := some i.file, loaded := true }

/-- Models the standalone branch of `Instance.unload` (lines 942-949).  The
frame branch is `Series.frame_unload`. -/
def Instance.unload (i : Instance) : Instance :=
  if i.loaded then { i with dicom := none, loaded := false } else i

/-- Models `Instance.dicom_dataset` (lines 916-931) for a standalone instance:
temporarily load, read `_dicom`, restore the prior load state. -/
def Instance.dicom_dataset (i : Instance) : Option Dataset × Instance :=
  let load_stat := i.loaded
  let i1 := i.load
  let dcm := i1.dicom
  let i2 := if load_stat then i1 else i1.unload
  (dcm, i2)

/-- Models `Instance.get_tag` (lines 951-985) for a standalone instance.  Note
that when the resolver raises `KeyError` the code never reaches the
`if not load_stat: self.unload()` line, so the instance stays loaded. -/
def Instance.get_tag (i : Instance) (t : Nat) : Except PyErr (Option TagValue) × Instance :=
  let load_stat := i.loaded
  let i1 := i.load
  let dcm := i1.dicom
  match dcm with
  | some ds =>
    match ds.resolve t with
    | .ok v =>
      let i2 := if load_stat then i1 else i1.unload
      (.ok (some v), i2)
    | .error e => (.error e, i1)
  | none =>
    let i2 := if load_stat then i1 else i1.unload
    (.ok none, i2)

/-- Models `Instance.raw_array` (lines 777-791) for a standalone instance:
`np.array([self._dicom.pixel_array])` when the payload is there, otherwise the
all-zero `np.zeros((1, 1, 1))` placeholder.  The frame branch is
`Series.frame_raw_array`. -/
def Instance.raw_array (i : Instance) : Except PyErr NpArr × Instance :=
  let i1 := i.load
  match i1.dicom with
  | some ds =>
    match npWrap ds.pixel_array with
    | .ok a => (.ok a, i1)
    | .error e => (.error e, i1)
  | none => (.ok npZeros111, i1)

/-- The colour-space converter `convert_color_space(raw, source, "RGB")`,
an external collaborator passed in explicitly: per the spec it returns the
converted array or fails for an unsupported source space. -/
def ColorConverter : Type := NpArr → String → Except PyErr NpArr

/-- Python `raw_array * slope + intercept` where `slope` and `intercept` are
resolver results: numbers scale elementwise, anything else (including `None`)
raises `TypeError`, which the `array` accessors do not catch. -/
def scaleOp (a : NpArr) (slope intercept : Option TagValue) : Except PyErr NpArr :=
  match slope, intercept with
  | some (.num sl), some (.num ic) => .ok (a.scale sl ic)
  | _, _ => .error .typeError

/-- Models `Instance.array` (lines 793-827) for a standalone instance: widen
`raw_array` to float, then rescale (single sample) or colour-convert
(multisample), falling back to the widened raw array when the relevant tags
are absent.  The frame branch indexes into the owning series' `array`. -/
def Instance.array (ccs : ColorConverter) (i : Instance) : Except PyErr NpArr × Instance :=
  let i1 := i.load
  match i1.raw_array with
  | (.error e, i2) => (.error e, i2)
  | (.ok raw0, i2) =>
    let rawf := raw0.astype
    match i2.get_tag DicomTags.SamplesPerPixel with
    | (.error e, i3) => (.error e, i3)
    | (.ok spp, i3) =>
      if spp = some (.num 1) then
        match i3.get_tag DicomTags.RescaleSlope with
        | (.error .keyError, i4) => (.ok rawf, i4)
        | (.error e, i4) => (.error e, i4)
        | (.ok slope, i4) =>
          match i4.get_tag DicomTags.RescaleIntercept with
          | (.error .keyError, i5) => (.ok rawf, i5)
          | (.error e, i5) => (.error e, i5)
          | (.ok intercept, i5) =>
            match scaleOp rawf slope intercept with
            | .ok a => (.ok a, i5)
            | .error e => (.error e, i5)
      else
        match i3.get_tag DicomTags.PhotometricInterpretation with
        | (.error .keyError, i4) => (.ok rawf, i4)
        | (.error .notImplementedError, i4) => (.ok rawf, i4)
        | (.error e, i4) => (.error e, i4)
        | (.ok pv, i4) =>
          match pv with
          | some (.str ps) =>
            match i4.raw_array with
            | (.error e, i5) => (.error e, i5)
            | (.ok raw2, i5) =>
              match ccs raw2 ps with
              | .ok conv => (.ok conv.astype, i5)
              | .error .keyError => (.ok rawf, i5)
              | .error .notImplementedError => (.ok rawf, i5)
              | .error e => (.error e, i5)
          | _ => (.ok rawf, i4)

/-- Mutable state of one `Series` object (lines 226-647).  `file` is the
decoded content at the series' `filepath` (meaningful for a stack), `dicom` is
the `_dicom` cache, `insts` is the `_image_set` hash set (kept as a list with
set-insertion keyed by `uid`; ordered listings are recomputed by sorting, as
in the source).  `shape`, `is_multisample`, `is_rgb`, `current_slice` and the
`base_*` defaults come from the `ImageCollection` base class, modelled from
the spec (`num_slices` is `shape`'s first component).  The identity fields
(`study`, `series_id`, ...) live in `SeriesNode` above and play no role in the
stateful methods. -/
structure Series where
  is_stack : Bool
  file : Dataset
  insts : List Instance
  loaded : Bool
  dicom : Option Dataset
  shape : Nat × Nat × Nat
  is_multisample : Bool
  is_rgb : Bool
  current_slice : Nat
  base_vmax : Option ℚ
  base_vmin : Option ℚ
  base_window : Option ℚ
  base_level : Option ℚ
deriving DecidableEq

/-- Modelled from the spec: the base class' slice count is the first component
of `shape`. -/
def Series.num_slices (s : Series) : Nat := s.shape.1

/-- Stable insertion into a list sorted ascending by `sort_value`. -/
def insertSorted (i : Instance) : List Instance → List Instance
  | [] => [i]
  | j :: rest =>
    if j.sort_value ≤ i.sort_value then j :: insertSorted i rest else i :: j :: rest

/-- Models `sorted(self._image_set, key=lambda x: x.sort_value)` (line 370):
an ascending stable sort.  A Python set has no observable order, so any stable
sort is a faithful model. -/
def sortInsts : List Instance → List Instance
  | [] => []
  | i :: rest => insertSorted i (sortInsts rest)

/-- Models the `Series.instances` property (lines 367-370). -/
def Series.instances (s : Series) : List Instance := sortInsts s.insts

/-- Models `Series.load` (lines 576-588).  A stack decodes its file into the
`_dicom` cache and marks every frame-view loaded; a non-stack series loads
each child.  (A frame-view child of a *non-stack* series would make Python
recurse without bound, and no reachable tree contains one; such children are
left untouched here.) -/
def Series.load (s : Series) : Series :=
  if s.loaded then s
  else if s.is_stack then
    { s with dicom := some s.file,
             insts := s.insts.map (fun i => { i with loaded := true }),
             loaded := true }
  else
    { s with insts := s.insts.map (fun i => if i.is_frame then i else i.load),
             loaded := true }

/-- Models `Series.unload` (lines 590-600), the inverse of `Series.load`. -/
def Series.unload (s : Series) : Series :=
  if s.loaded then
    if s.is_stack then
      { s with dicom := none,
               insts := s.insts.map (fun i => { i with loaded := false }),
               loaded := false }
    else
      { s with insts := s.insts.map (fun i => if i.is_frame then i else i.unload),
               loaded := false }
  else s

/-- Replaces the child instance with key `u` in the series' image set.  This
is how the model expresses Python's in-place mutation of a member object. -/
def Series.setInstF (s : Series) (u : Nat) (f : Instance → Instance) : Series :=
  { s with insts := s.insts.map (fun x => if x.uid = u then f x else x) }

/-- Models the frame branch of `Instance.load` (lines 933-940): forward to the
owning series, then set the own `loaded` flag. -/
def Series.frame_load (s : Series) (u : Nat) : Series :=
  match s.insts.find? (fun x => x.uid = u) with
  | none => s
  | some i =>
    if i.loaded then s else (s.load).setInstF u (fun x => { x with loaded := true })

/-- Models the frame branch of `Instance.unload` (lines 942-949): forward to
the owning series, then clear the own `loaded` flag. -/
def Series.frame_unload (s : Series) (u : Nat) : Series :=
  match s.insts.find? (fun x => x.uid = u) with
  | none => s
  | some i =>
    if i.loaded then (s.unload).setInstF u (fun x => { x with loaded := false }) else s

/-- Models `Series.dicom_dataset` (lines 530-545): temporarily load, read the
stack's cache or the current child's dataset, restore the prior state.  The
list indexing `self.instances[self.current_slice]` raises `IndexError` when
the slice is out of range (skipping the restore), and a frame-view child of a
non-stack series would recurse without bound (`recursionError`). -/
def Series.dicom_dataset (s : Series) : Except PyErr (Option Dataset) × Series :=
  let load_stat := s.loaded
  let s1 := s.load
  if s1.is_stack then
    let dcm := s1.dicom
    let s2 := if load_stat then s1 else s1.unload
    (.ok dcm, s2)
  else
    match (sortInsts s1.insts).get? s1.current_slice with
    | none => (.error .indexError, s1)
    | some i =>
      if i.is_frame then (.error .recursionError, s1)
      else
        match i.dicom_dataset with
        | (dcm, i1) =>
          let s2 := s1.setInstF i.uid (fun _ => i1)
          let s3 := if load_stat then s2 else s2.unload
          (.ok dcm, s3)

/-- Models `Instance.get_tag` (lines 951-985) for a frame instance: load via
the owning series, read the series' dataset, resolve the tag with the frame
number, and restore the prior state — except on the resolver's `KeyError`,
which skips the restoring `unload` (the instance and series stay loaded). -/
def Series.frame_get_tag (s : Series) (u : Nat) (t : Nat) :
    Except PyErr (Option TagValue) × Series :=
  match s.insts.find? (fun x => x.uid = u) with
  | none => (.error .valueError, s)
  | some i =>
    let load_stat := i.loaded
    let s1 := if load_stat then s else s.frame_load u
    match s1.dicom_dataset with
    | (.error e, s2) => (.error e, s2)
    | (.ok dcm, s2) =>
      match dcm with
      | some ds =>
        match i.frame_number with
        | some fn =>
          match ds.resolveFrame t fn with
          | .ok v =>
            let s3 := if load_stat then s2 else s2.frame_unload u
            (.ok (some v), s3)
          | .error e => (.error e, s2)
        | none =>
          match ds.resolve t with
          | .ok v =>
            let s3 := if load_stat then s2 else s2.frame_unload u
            (.ok (some v), s3)
          | .error e => (.error e, s2)
      | none =>
        let s3 := if load_stat then s2 else s2.frame_unload u
        (.ok none, s3)

/-- Dispatches `instance.get_tag(tag)` for the child with set key `u`,
writing the child's new state back into the series. -/
def Series.inst_get_tag (s : Series) (u : Nat) (t : Nat) :
    Except PyErr (Option TagValue) × Series :=
  match s.insts.find? (fun x => x.uid = u) with
  | none => (.error .valueError, s)
  | some i =>
    if i.is_frame then s.frame_get_tag u t
    else
      match i.get_tag t with
      | (r, i1) => (r, s.setInstF u (fun _ => i1))

/-- Models `Series.get_tag` (lines 629-647): bounds-check the instance number
against `num_slices`, then proxy to the child at that position in sort order.
When the image set has fewer members than `num_slices` (a fresh stack), the
list indexing itself raises `IndexError`. -/
def Series.get_tag (s : Series) (t : Nat) (n : Nat) : Except PyErr (Option TagValue) × Series :=
  if n < s.num_slices then
    match (sortInsts s.insts).get? n with
    | some i => s.inst_get_tag i.uid t
    | none => (.error .indexError, s)
  else (.error .indexError, s)

/-- Runs `instance.get_tag(tag)` over the listed children in order,
propagating the first exception. -/
def Series.getTagsGo (t : Nat) : List Nat → Series → Except PyErr (List (Option TagValue)) × Series
  | [], s => (.ok [], s)
  | u :: rest, s =>
    match s.inst_get_tag u t with
    | (.error e, s1) => (.error e, s1)
    | (.ok v, s1) =>
      match Series.getTagsGo t rest s1 with
      | (.error e, s2) => (.error e, s2)
      | (.ok vs, s2) => (.ok (v :: vs), s2)

/-- Models `Series.get_tags` (lines 602-627): temporarily load, collect the
tag value of every child in sort order, restore the prior state — except when
a child lookup raises, which skips the restoring `unload`. -/
def Series.get_tags (s : Series) (t : Nat) : Except PyErr (List (Option TagValue)) × Series :=
  let load_stat := s.loaded
  let s1 := s.load
  match Series.getTagsGo t ((sortInsts s1.insts).map (fun i => i.uid)) s1 with
  | (.error e, s2) => (.error e, s2)
  | (.ok vs, s2) =>
    let s3 := if load_stat then s2 else s2.unload
    (.ok vs, s3)

/-- Python set insertion into `_image_set`: a no-op when an element with the
same identity is already present. -/
def setAdd (insts : List Instance) (i : Instance) : List Instance :=
  if insts.any (fun x => x.uid = i.uid) then insts else insts ++ [i]

/-- Models `Series.add_instance` (lines 547-568): accept when `num_slices`
is zero or when height, width and the two flags all match; on success insert
and recompute `shape` and the flags, otherwise raise `ValueError` with the
state untouched (the raise precedes every mutation). -/
def Series.add_instance (s : Series) (i : Instance) : Except PyErr Unit × Series :=
  if s.num_slices = 0 ∨
      (s.shape.2.1 = i.shape.2.1 ∧ s.shape.2.2 = i.shape.2.2 ∧
       s.is_multisample = i.is_multisample ∧ s.is_rgb = i.is_rgb) then
    let new_set := setAdd s.insts i
    (.ok (), { s with insts := new_set,
                      shape := (new_set.length, i.shape.2.1, i.shape.2.2),
                      is_multisample := i.is_multisample,
                      is_rgb := i.is_rgb })
  else (.error .valueError, s)

/-- Evaluates `[a.raw_array for a in self.instances]` over the listed
children, propagating the first exception.  A frame-view child would send
Python into unbounded recursion through the owning series (`recursionError`). -/
def Series.rawsGo : List Nat → Series → Except PyErr (List NpArr) × Series
  | [], s => (.ok [], s)
  | u :: rest, s =>
    match s.insts.find? (fun x => x.uid = u) with
    | none => (.error .valueError, s)
    | some i =>
      if i.is_frame then (.error .recursionError, s)
      else
        match i.raw_array with
        | (.error e, i1) => (.error e, s.setInstF u (fun _ => i1))
        | (.ok a, i1) =>
          let s1 := s.setInstF u (fun _ => i1)
          match Series.rawsGo rest s1 with
          | (.error e, s2) => (.error e, s2)
          | (.ok vs, s2) => (.ok (a :: vs), s2)

/-- Models `Series.raw_array` (lines 377-389): load if needed; a stack with a
cached payload returns it verbatim, otherwise the children's raw arrays are
concatenated in sort order. -/
def Series.raw_array (s : Series) : Except PyErr NpArr × Series :=
  let s1 := s.load
  match s1.is_stack, s1.dicom with
  | true, some ds => (.ok ds.pixel_array, s1)
  | _, _ =>
    match Series.rawsGo ((sortInsts s1.insts).map (fun i => i.uid)) s1 with
    | (.error e, s2) => (.error e, s2)
    | (.ok vs, s2) =>
      match npConcat vs with
      | .ok a => (.ok a, s2)
      | .error e => (.error e, s2)

/-- Models `Instance.raw_array` (lines 777-791) for a frame instance: load if
needed, then `np.array([self.series.raw_array[self.frame_number - 1]])`.  A
frame without a frame number falls through to the `_dicom` / zeros branches. -/
def Series.frame_raw_array (s : Series) (u : Nat) : Except PyErr NpArr × Series :=
  match s.insts.find? (fun x => x.uid = u) with
  | none => (.error .valueError, s)
  | some i =>
    let s1 := if i.loaded then s else s.frame_load u
    match i.frame_number with
    | some fn =>
      match s1.raw_array with
      | (.error e, s2) => (.error e, s2)
      | (.ok a, s2) =>
        match a.pyIndex (fn - 1) with
        | .error e => (.error e, s2)
        | .ok f =>
          match npWrap f with
          | .ok w => (.ok w, s2)
          | .error e => (.error e, s2)
    | none =>
      match i.dicom with
      | some ds =>
        match npWrap ds.pixel_array with
        | .ok w => (.ok w, s1)
        | .error e => (.error e, s1)
      | none => (.ok npZeros111, s1)

/-- Evaluates `[a.array for a in self.instances]` over the listed children,
propagating the first exception. -/
def Series.arraysGo (ccs : ColorConverter) :
    List Nat → Series → Except PyErr (List NpArr) × Series
  | [], s => (.ok [], s)
  | u :: rest, s =>
    match s.insts.find? (fun x => x.uid = u) with
    | none => (.error .valueError, s)
    | some i =>
      if i.is_frame then (.error .recursionError, s)
      else
        match i.array ccs with
        | (.error e, i1) => (.error e, s.setInstF u (fun _ => i1))
        | (.ok a, i1) =>
          let s1 := s.setInstF u (fun _ => i1)
          match Series.arraysGo ccs rest s1 with
          | (.error e, s2) => (.error e, s2)
          | (.ok vs, s2) => (.ok (a :: vs), s2)

/-- Models `Series.array` (lines 391-425): load if needed; a stack widens its
raw array to float and applies the rescale (single sample) or colour-space
(multisample) correction using the first slice's tags, falling back to the
widened raw array when the relevant correction tags are absent; a non-stack
series concatenates its children's `array`s in sort order. -/
def Series.array (ccs : ColorConverter) (s : Series) : Except PyErr NpArr × Series :=
  let s1 := s.load
  if s1.is_stack then
    match s1.raw_array with
    | (.error e, s2) => (.error e, s2)
    | (.ok raw0, s2) =>
      let rawf := raw0.astype
      match s2.get_tag DicomTags.SamplesPerPixel 0 with
      | (.error e, s3) => (.error e, s3)
      | (.ok spp, s3) =>
        if spp = some (.num 1) then
          match s3.get_tag DicomTags.RescaleSlope 0 with
          | (.error .keyError, s4) => (.ok rawf, s4)
          | (.error e, s4) => (.error e, s4)
          | (.ok slope, s4) =>
            match s4.get_tag DicomTags.RescaleIntercept 0 with
            | (.error .keyError, s5) => (.ok rawf, s5)
            | (.error e, s5) => (.error e, s5)
            | (.ok intercept, s5) =>
              match scaleOp rawf slope intercept with
              | .ok a => (.ok a, s5)
              | .error e => (.error e, s5)
        else
          match s3.get_tag DicomTags.PhotometricInterpretation 0 with
          | (.error .keyError, s4) => (.ok rawf, s4)
          | (.error .notImplementedError, s4) => (.ok rawf, s4)
          | (.error e, s4) => (.error e, s4)
          | (.ok pv, s4) =>
            match pv with
            | some (.str ps) =>
              match s4.raw_array with
              | (.error e, s5) => (.error e, s5)
              | (.ok raw2, s5) =>
                match ccs raw2 ps with
                | .ok conv => (.ok conv.astype, s5)
                | .error .keyError => (.ok rawf, s5)
                | .error .notImplementedError => (.ok rawf, s5)
                | .error e => (.error e, s5)
            | _ => (.ok rawf, s4)
  else
    match Series.arraysGo ccs ((sortInsts s1.insts).map (fun i => i.uid)) s1 with
    | (.error e, s2) => (.error e, s2)
    | (.ok vs, s2) =>
      match npConcat vs with
      | .ok a => (.ok a, s2)
      | .error e => (.error e, s2)

/-- Models `Series.vmax` (lines 427-446): `center + width / 2` when both tags
resolve to values; `TypeError` (a `None` or non-numeric value) and `KeyError`
(absent tag) fall back to the base default, but `IndexError` from the
slice-indexed lookup is not caught and propagates. -/
def Series.vmax (s : Series) : Except PyErr (Option ℚ) × Series :=
  match s.get_tag DicomTags.WindowWidth s.current_slice with
  | (.error .keyError, s1) => (.ok s1.base_vmax, s1)
  | (.error .typeError, s1) => (.ok s1.base_vmax, s1)
  | (.error e, s1) => (.error e, s1)
  | (.ok ww, s1) =>
    match s1.get_tag DicomTags.WindowCenter s1.current_slice with
    | (.error .keyError, s2) => (.ok s2.base_vmax, s2)
    | (.error .typeError, s2) => (.ok s2.base_vmax, s2)
    | (.error e, s2) => (.error e, s2)
    | (.ok wc, s2) =>
      match wc, ww with
      | some wcv, some wwv =>
        match tvAddHalf wcv wwv with
        | .ok q => (.ok (some q), s2)
        | .error .typeError => (.ok s2.base_vmax, s2)
        | .error e => (.error e, s2)
      | _, _ => (.ok s2.base_vmax, s2)

/-- Models `Series.vmin` (lines 448-467): as `vmax` with `center - width / 2`.
`IndexError` is again not caught. -/
def Series.vmin (s : Series) : Except PyErr (Option ℚ) × Series :=
  match s.get_tag DicomTags.WindowWidth s.current_slice with
  | (.error .keyError, s1) => (.ok s1.base_vmin, s1)
  | (.error .typeError, s1) => (.ok s1.base_vmin, s1)
  | (.error e, s1) => (.error e, s1)
  | (.ok ww, s1) =>
    match s1.get_tag DicomTags.WindowCenter s1.current_slice with
    | (.error .keyError, s2) => (.ok s2.base_vmin, s2)
    | (.error .typeError, s2) => (.ok s2.base_vmin, s2)
    | (.error e, s2) => (.error e, s2)
    | (.ok wc, s2) =>
      match wc, ww with
      | some wcv, some wwv =>
        match tvSubHalf wcv wwv with
        | .ok q => (.ok (some q), s2)
        | .error .typeError => (.ok s2.base_vmin, s2)
        | .error e => (.error e, s2)
      | _, _ => (.ok s2.base_vmin, s2)

/-- Models `Series.window` (lines 469-484): `float(width)` when the tag
resolves to a value; `KeyError`, `IndexError` and `TypeError` all fall back to
the base default (but `float` of a non-numeric string, a `ValueError`, would
propagate). -/
def Series.window (s : Series) : Except PyErr (Option ℚ) × Series :=
  match s.get_tag DicomTags.WindowWidth s.current_slice with
  | (.error .keyError, s1) => (.ok s1.base_window, s1)
  | (.error .indexError, s1) => (.ok s1.base_window, s1)
  | (.error .typeError, s1) => (.ok s1.base_window, s1)
  | (.error e, s1) => (.error e, s1)
  | (.ok none, s1) => (.ok s1.base_window, s1)
  | (.ok (some v), s1) =>
    match floatConv v with
    | .ok q => (.ok (some q), s1)
    | .error .typeError => (.ok s1.base_window, s1)
    | .error e => (.error e, s1)

/-- Models `Series.level` (lines 486-499): `float(center)` when the tag
resolves to a value; `KeyError` and `IndexError` fall back to the base
default, but — unlike `window` — `TypeError` from the `float` conversion is
not caught and propagates. -/
def Series.level (s : Series) : Except PyErr (Option ℚ) × Series :=
  match s.get_tag DicomTags.WindowCenter s.current_slice with
  | (.error .keyError, s1) => (.ok s1.base_level, s1)
  | (.error .indexError, s1) => (.ok s1.base_level, s1)
  | (.error e, s1) => (.error e, s1)
  | (.ok none, s1) => (.ok s1.base_level, s1)
  | (.ok (some v), s1) =>
    match floatConv v with
    | .ok q => (.ok (some q), s1)
    | .error e => (.error e, s1)

/-- Final step of the `pixel_size` accessors (lines 522-528 and 908-914):
subscript the pixel spacing for row and column spacing; `TypeError` (a
non-subscriptable value) yields `(thickness, 1, 1)`, while `IndexError` from a
too-short sequence propagates. -/
def pixelSizeSub (ps st : TagValue) : Except PyErr (TagValue × TagValue × TagValue) :=
  match ps.subscript 0 with
  | .error .typeError => .ok (st, .num 1, .num 1)
  | .error e => .error e
  | .ok row =>
    match ps.subscript 1 with
    | .error .typeError => .ok (st, .num 1, .num 1)
    | .error e => .error e
    | .ok col => .ok (st, row, col)

/-- Second step of `Series.pixel_size`: the SliceThickness lookup (default
`1` on `KeyError` or a `None` value), then `pixelSizeSub`. -/
def Series.pixel_size_rest (ps : TagValue) (s : Series) :
    Except PyErr (TagValue × TagValue × TagValue) × Series :=
  match s.get_tag DicomTags.SliceThickness s.current_slice with
  | (.error .keyError, s1) =>
    match pixelSizeSub ps (TagValue.num 1) with
    | .ok r => (.ok r, s1)
    | .error e => (.error e, s1)
  | (.error e, s1) => (.error e, s1)
  | (.ok v, s1) =>
    match pixelSizeSub ps (match v with | some tv => tv | none => TagValue.num 1) with
    | .ok r => (.ok r, s1)
    | .error e => (.error e, s1)

/-- Models `Series.pixel_size` (lines 501-528): PixelSpacing (default `(1, 1)`
on `KeyError` or a `None` value) and SliceThickness (default `1` on `KeyError`
or `None`), then `pixelSizeSub`.  `IndexError` from the slice-indexed lookups
is not caught and propagates. -/
def Series.pixel_size (s : Series) : Except PyErr (TagValue × TagValue × TagValue) × Series :=
  match s.get_tag DicomTags.PixelSpacing s.current_slice with
  | (.error .keyError, s1) => Series.pixel_size_rest (TagValue.pair [1, 1]) s1
  | (.error e, s1) => (.error e, s1)
  | (.ok v, s1) =>
    match v with
    | some pv => Series.pixel_size_rest pv s1
    | none => Series.pixel_size_rest (TagValue.pair [1, 1]) s1

/-- Models `Instance.vmax` (lines 829-846) for a standalone instance:
`center + width / 2` when both tags resolve to values; `TypeError` and
`KeyError` fall back to the base default; `IndexError` is not caught. -/
def Instance.vmax (i : Instance) : Except PyErr (Option ℚ) × Instance :=
  match i.get_tag DicomTags.WindowWidth with
  | (.error .keyError, i1) => (.ok i1.base_vmax, i1)
  | (.error .typeError, i1) => (.ok i1.base_vmax, i1)
  | (.error e, i1) => (.error e, i1)
  | (.ok ww, i1) =>
    match i1.get_tag DicomTags.WindowCenter with
    | (.error .keyError, i2) => (.ok i2.base_vmax, i2)
    | (.error .typeError, i2) => (.ok i2.base_vmax, i2)
    | (.error e, i2) => (.error e, i2)
    | (.ok wc, i2) =>
      match wc, ww with
      | some wcv, some wwv =>
        match tvAddHalf wcv wwv with
        | .ok q => (.ok (some q), i2)
        | .error .typeError => (.ok i2.base_vmax, i2)
        | .error e => (.error e, i2)
      | _, _ => (.ok i2.base_vmax, i2)

/-- Models `Instance.vmin` (lines 848-865) for a standalone instance. -/
def Instance.vmin (i : Instance) : Except PyErr (Option ℚ) × Instance :=
  match i.get_tag DicomTags.WindowWidth with
  | (.error .keyError, i1) => (.ok i1.base_vmin, i1)
  | (.error .typeError, i1) => (.ok i1.base_vmin, i1)
  | (.error e, i1) => (.error e, i1)
  | (.ok ww, i1) =>
    match i1.get_tag DicomTags.WindowCenter with
    | (.error .keyError, i2) => (.ok i2.base_vmin, i2)
    | (.error .typeError, i2) => (.ok i2.base_vmin, i2)
    | (.error e, i2) => (.error e, i2)
    | (.ok wc, i2) =>
      match wc, ww with
      | some wcv, some wwv =>
        match tvSubHalf wcv wwv with
        | .ok q => (.ok (some q), i2)
        | .error .typeError => (.ok i2.base_vmin, i2)
        | .error e => (.error e, i2)
      | _, _ => (.ok i2.base_vmin, i2)

/-- Models `Instance.window` (lines 867-876) for a standalone instance: the
WindowWidth tag value is returned verbatim (even a `None`); `KeyError` and
`IndexError` fall back to the base default. -/
def Instance.window (i : Instance) : Except PyErr (Option TagValue) × Instance :=
  match i.get_tag DicomTags.WindowWidth with
  | (.error .keyError, i1) => (.ok (i1.base_window.map .num), i1)
  | (.error .indexError, i1) => (.ok (i1.base_window.map .num), i1)
  | (.error e, i1) => (.error e, i1)
  | (.ok v, i1) => (.ok v, i1)

/-- Models `Instance.level` (lines 878-887) for a standalone instance. -/
def Instance.level (i : Instance) : Except PyErr (Option TagValue) × Instance :=
  match i.get_tag DicomTags.WindowCenter with
  | (.error .keyError, i1) => (.ok (i1.base_level.map .num), i1)
  | (.error .indexError, i1) => (.ok (i1.base_level.map .num), i1)
  | (.error e, i1) => (.error e, i1)
  | (.ok v, i1) => (.ok v, i1)

/-- Second step of `Instance.pixel_size`, mirroring `Series.pixel_size_rest`. -/
def Instance.pixel_size_rest (ps : TagValue) (i : Instance) :
    Except PyErr (TagValue × TagValue × TagValue) × Instance :=
  match i.get_tag DicomTags.SliceThickness with
  | (.error .keyError, i1) =>
    match pixelSizeSub ps (TagValue.num 1) with
    | .ok r => (.ok r, i1)
    | .error e => (.error e, i1)
  | (.error e, i1) => (.error e, i1)
  | (.ok v, i1) =>
    match pixelSizeSub ps (match v with | some tv => tv | none => TagValue.num 1) with
    | .ok r => (.ok r, i1)
    | .error e => (.error e, i1)

/-- Models `Instance.pixel_size` (lines 889-914) for a standalone instance. -/
def Instance.pixel_size (i : Instance) :
    Except PyErr (TagValue × TagValue × TagValue) × Instance :=
  match i.get_tag DicomTags.PixelSpacing with
  | (.error .keyError, i1) => Instance.pixel_size_rest (TagValue.pair [1, 1]) i1
  | (.error e, i1) => (.error e, i1)
  | (.ok v, i1) =>
    match v with
    | some pv => Instance.pixel_size_rest pv i1
    | none => Instance.pixel_size_rest (TagValue.pair [1, 1]) i1

/- Concrete objects used by the witness and counterexample theorems below. -/

/-- A colour-space converter that succeeds with the input unchanged; the
single-sample claims hold for every converter, so any concrete one will do. -/
def ccs0 : ColorConverter := fun a _ => .ok a

/-- A concrete stand-in for Python's (randomized) string hash. -/
def hf0 : String → Int := fun _ => 0

/-- A single-frame stack dataset carrying rescale and window tags: the frame 1
tags give SamplesPerPixel 1, RescaleSlope 2, RescaleIntercept -100,
WindowWidth 400, WindowCenter 40, over the raw pixel value 150. -/
def dsRescale : Dataset :=
  { tags := []
    frameTags :=
      [((1, DicomTags.SamplesPerPixel), .num 1),
       ((1, DicomTags.RescaleSlope), .num 2),
       ((1, DicomTags.RescaleIntercept), .num (-100)),
       ((1, DicomTags.WindowWidth), .num 400),
       ((1, DicomTags.WindowCenter), .num 40)]
    pixel_array := .d3 [[[150]]] }

/-- The frame-view instance of `stackLoaded`. -/
def frameInst1 : Instance :=
  { uid := 1, instance_number := 1, is_frame := true, frame_number := some 1
    file := dsRescale, loaded := true, dicom := none
    height := 1, width := 1, is_multisample := false, is_rgb := false
    base_vmax := some 99, base_vmin := some (-99)
    base_window := some 50, base_level := some 5 }

/-- A loaded single-frame stack series over `dsRescale`. -/
def stackLoaded : Series :=
  { is_stack := true, file := dsRescale, insts := [frameInst1]
    loaded := true, dicom := some dsRescale, shape := (1, 1, 1)
    is_multisample := false, is_rgb := false, current_slice := 0
    base_vmax := some 99, base_vmin := some (-99)
    base_window := some 50, base_level := some 5 }

/-- A single-frame stack dataset whose only frame tag is SamplesPerPixel 1:
no rescale, window or spacing tags. -/
def dsNoTags : Dataset :=
  { tags := []
    frameTags := [((1, DicomTags.SamplesPerPixel), .num 1)]
    pixel_array := .d3 [[[150]]] }

/-- The frame-view instance of `stackNoResc`. -/
def frameInst2 : Instance :=
  { uid := 1, instance_number := 1, is_frame := true, frame_number := some 1
    file := dsNoTags, loaded := true, dicom := none
    height := 1, width := 1, is_multisample := false, is_rgb := false
    base_vmax := some 99, base_vmin := some (-99)
    base_window := some 50, base_level := some 5 }

/-- A loaded single-frame stack series over `dsNoTags`. -/
def stackNoResc : Series :=
  { is_stack := true, file := dsNoTags, insts := [frameInst2]
    loaded := true, dicom := some dsNoTags, shape := (1, 1, 1)
    is_multisample := false, is_rgb := false, current_slice := 0
    base_vmax := some 99, base_vmin := some (-99)
    base_window := some 50, base_level := some 5 }

/-- A single-frame stack dataset with no tags at all (in particular no
SamplesPerPixel). -/
def dsNoSPP : Dataset :=
  { tags := [], frameTags := [], pixel_array := .d3 [[[150]]] }

/-- The frame-view instance of `stackNoSPP`. -/
def frameInst3 : Instance :=
  { uid := 1, instance_number := 1, is_frame := true, frame_number := some 1
    file := dsNoSPP, loaded := true, dicom := none
    height := 1, width := 1, is_multisample := false, is_rgb := false
    base_vmax := none, base_vmin := none, base_window := none, base_level := none }

/-- A loaded single-frame stack series over `dsNoSPP`. -/
def stackNoSPP : Series :=
  { is_stack := true, file := dsNoSPP, insts := [frameInst3]
    loaded := true, dicom := some dsNoSPP, shape := (1, 1, 1)
    is_multisample := false, is_rgb := false, current_slice := 0
    base_vmax := none, base_vmin := none, base_window := none, base_level := none }

/-- A five-frame stack dataset (frame k holds the pixel value k). -/
def ds5 : Dataset :=
  { tags := [], frameTags := []
    pixel_array := .d3 [[[1]], [[2]], [[3]], [[4]], [[5]]] }

/-- The frame-view instance with frame number 3 of `stack5`. -/
def frameInst5 : Instance :=
  { uid := 1, instance_number := 3, is_frame := true, frame_number := some 3
    file := ds5, loaded := true, dicom := none
    height := 1, width := 1, is_multisample := false, is_rgb := false
    base_vmax := none, base_vmin := none, base_window := none, base_level := none }

/-- A loaded five-frame stack series over `ds5`. -/
def stack5 : Series :=
  { is_stack := true, file := ds5, insts := [frameInst5]
    loaded := true, dicom := some ds5, shape := (5, 1, 1)
    is_multisample := false, is_rgb := false, current_slice := 0
    base_vmax := none, base_vmin := none, base_window := none, base_level := none }

/-- A freshly constructed five-frame stack series: `shape` was derived from
the decoded pixel array at construction time, but no frame-view children have
been added yet (`_image_set` is empty) and nothing is loaded. -/
def freshStack : Series :=
  { is_stack := true, file := ds5, insts := []
    loaded := false, dicom := none, shape := (5, 10, 10)
    is_multisample := false, is_rgb := false, current_slice := 0
    base_vmax := none, base_vmin := none, base_window := none, base_level := none }

/-- A standalone instance whose shape (8 by 8) differs from `freshStack`'s
10 by 10. -/
def mismInst : Instance :=
  { uid := 2, instance_number := 1, is_frame := false, frame_number := none
    file := dsNoSPP, loaded := false, dicom := none
    height := 8, width := 8, is_multisample := false, is_rgb := false
    base_vmax := none, base_vmin := none, base_window := none, base_level := none }

/-- An empty non-stack series, as `Series.__init__` builds one:
shape `(0, 0, 0)`, flags false, nothing loaded. -/
def emptySeries : Series :=
  { is_stack := false, file := dsNoSPP, insts := []
    loaded := false, dicom := none, shape := (0, 0, 0)
    is_multisample := false, is_rgb := false, current_slice := 0
    base_vmax := some 99, base_vmin := some (-99)
    base_window := some 50, base_level := some 5 }

/-- An unloaded standalone instance over a dataset with no top-level tags. -/
def soloInstU : Instance :=
  { uid := 3, instance_number := 1, is_frame := false, frame_number := none
    file := dsNoTags, loaded := false, dicom := none
    height := 1, width := 1, is_multisample := false, is_rgb := false
    base_vmax := some 99, base_vmin := some (-99)
    base_window := some 50, base_level := some 5 }

/-- An unloaded non-stack series owning `soloInstU`. -/
def plainUnloaded : Series :=
  { is_stack := false, file := dsNoTags, insts := [soloInstU]
    loaded := false, dicom := none, shape := (1, 1, 1)
    is_multisample := false, is_rgb := false, current_slice := 0
    base_vmax := some 99, base_vmin := some (-99)
    base_window := some 50, base_level := some 5 }

/-- A loaded standalone instance over `dsRescale`-style top-level tags:
SamplesPerPixel 1, RescaleSlope 2, RescaleIntercept -100, raw pixel 150. -/
def dsSoloRescale : Dataset :=
  { tags :=
      [(DicomTags.SamplesPerPixel, .num 1),
       (DicomTags.RescaleSlope, .num 2),
       (DicomTags.RescaleIntercept, .num (-100))]
    frameTags := [], pixel_array := .d2 [[150]] }

/-- A loaded standalone instance over `dsSoloRescale`. -/
def soloRescale : Instance :=
  { uid := 4, instance_number := 1, is_frame := false, frame_number := none
    file := dsSoloRescale, loaded := true, dicom := some dsSoloRescale
    height := 1, width := 1, is_multisample := false, is_rgb := false
    base_vmax := none, base_vmin := none, base_window := none, base_level := none }

/-- A loaded standalone instance over `dsNoTags`-style top-level tags
(only SamplesPerPixel 1). -/
def dsSoloNoResc : Dataset :=
  { tags := [(DicomTags.SamplesPerPixel, .num 1)]
    frameTags := [], pixel_array := .d2 [[150]] }

/-- A loaded standalone instance over `dsSoloNoResc`. -/
def soloNoResc : Instance :=
  { uid := 5, instance_number := 1, is_frame := false, frame_number := none
    file := dsSoloNoResc, loaded := true, dicom := some dsSoloNoResc
    height := 1, width := 1, is_multisample := false, is_rgb := false
    base_vmax := some 99, base_vmin := some (-99)
    base_window := some 50, base_level := some 5 }

/-- A loaded standalone instance whose payload is gone (`_dicom` is `None`):
the defensive-zeros state of `Instance.raw_array`. -/
def soloGone : Instance :=
  { uid := 6, instance_number := 1, is_frame := false, frame_number := none
    file := dsSoloNoResc, loaded := true, dicom := none
    height := 1, width := 1, is_multisample := false, is_rgb := false
    base_vmax := none, base_vmin := none, base_window := none, base_level := none }

/-- Patient "P1". -/
def patientA : Patient := { patient_id := "P1", name := "Alice" }

/-- Patient "P2". -/
def patientB : Patient := { patient_id := "P2", name := "Bob" }

/-- Study "S1" of `patientA`. -/
def studyA : Study :=
  { patient := patientA, study_id := "S1", study_date := 0, study_description := "d" }

/-- Study "S1" of `patientB`: same study id, different patient. -/
def studyB : Study :=
  { patient := patientB, study_id := "S1", study_date := 1, study_description := "e" }

/-- Elementwise rescale of one two-dimensional frame. -/
def scale2 (sl ic : ℚ) (fr : List (List ℚ)) : List (List ℚ) :=
  fr.map (List.map (fun q => q * sl + ic))

/-- A loaded standalone child of a non-stack series whose dataset is
single-sample with RescaleSlope `sl` and RescaleIntercept `ic` over the
two-dimensional frame `fr`; the tag lookups resolve and, being read-only on a
loaded child, leave it unchanged. -/
def RescaleChild (sl ic : ℚ) (i : Instance) (fr : List (List ℚ)) : Prop :=
  i.is_frame = false ∧ i.loaded = true ∧
  (∃ ds : Dataset, i.dicom = some ds ∧ ds.pixel_array = .d2 fr) ∧
  i.get_tag DicomTags.SamplesPerPixel = (.ok (some (.num 1)), i) ∧
  i.get_tag DicomTags.RescaleSlope = (.ok (some (.num sl)), i) ∧
  i.get_tag DicomTags.RescaleIntercept = (.ok (some (.num ic)), i)

/-- Links the listed set keys of a series to the frames of the children they
name: every key finds a `RescaleChild`, and writing that child back into the
image set is the identity. -/
inductive FramesOf (sl ic : ℚ) (s : Series) : List Nat → List (List (List ℚ)) → Prop
  | nil : FramesOf sl ic s [] []
  | cons {u : Nat} {us : List Nat} {fr : List (List ℚ)} {frames : List (List (List ℚ))}
      {i : Instance} :
      s.insts.find? (fun x => x.uid = u) = some i →
      RescaleChild sl ic i fr →
      s.setInstF u (fun _ => i) = s →
      FramesOf sl ic s us frames →
      FramesOf sl ic s (u :: us) (fr :: frames)

/-- A loaded non-stack series owning the single loaded child `soloRescale`. -/
def plainRescale : Series :=
  { is_stack := false, file := dsSoloRescale, insts := [soloRescale]
    loaded := true, dicom := none, shape := (1, 1, 1)
    is_multisample := false, is_rgb := false, current_slice := 0
    base_vmax := none, base_vmin := none, base_window := none, base_level := none }

/- Helper lemmas shared by the claim theorems. -/

theorem Series.load_of_loaded (s : Series) (h : s.loaded = true) : s.load = s := by
  simp [Series.load, h]

theorem Series.loaded_load (s : Series) : (s.load).loaded = true := by
  by_cases h : s.loaded
  · simp [Series.load, h]
  · by_cases h2 : s.is_stack <;> simp [Series.load, h, h2]

theorem Series.load_idem (s : Series) : (s.load).load = s.load :=
  Series.load_of_loaded _ (Series.loaded_load s)

theorem Instance.load_eq_of_loaded (i : Instance) (h : i.loaded = true) : i.load = i := by
  simp [Instance.load, h]

theorem Instance.loaded_after_load (i : Instance) : (i.load).loaded = true := by
  by_cases h : i.loaded <;> simp [Instance.load, h]

theorem Instance.load_load_eq (i : Instance) : (i.load).load = i.load :=
  Instance.load_eq_of_loaded _ (Instance.loaded_after_load i)

/-- C2 counterexample: a freshly constructed stack series has five slices but
zero children, and `add_instance` on a mismatched candidate raises
`ValueError` instead of accepting unconditionally as the claim's
"zero children implies accept" requires. -/
theorem C2_counterexample :
    freshStack.insts.length = 0 ∧
    (freshStack.add_instance mismInst).1 = .error .valueError ∧
    (freshStack.add_instance mismInst).2 = freshStack := by decide

/-- C2 (amended): `add_instance` accepts unconditionally when the *slice
count* (`num_slices`, which equals the child count for a non-stack series but
not for a fresh stack) is zero, adopting the candidate's height, width and
flags; otherwise it accepts exactly when all four values match, raising a
shape-mismatch `ValueError` with the state unchanged on a mismatch; on
success the slice count equals the child count. -/
theorem C2_add_instance (s : Series) (i : Instance) :
    (s.num_slices = 0 →
      s.add_instance i =
        (.ok (), { s with insts := setAdd s.insts i,
                          shape := ((setAdd s.insts i).length, i.height, i.width),
                          is_multisample := i.is_multisample,
                          is_rgb := i.is_rgb })) ∧
    (s.num_slices ≠ 0 →
      ((s.add_instance i).1 = .ok () ↔
        (s.shape.2.1 = i.height ∧ s.shape.2.2 = i.width ∧
         s.is_multisample = i.is_multisample ∧ s.is_rgb = i.is_rgb))) ∧
    (s.num_slices ≠ 0 →
      ¬(s.shape.2.1 = i.height ∧ s.shape.2.2 = i.width ∧
        s.is_multisample = i.is_multisample ∧ s.is_rgb = i.is_rgb) →
      s.add_instance i = (.error .valueError, s)) ∧
    ((s.add_instance i).1 = .ok () →
      ((s.add_instance i).2.shape.1 = (s.add_instance i).2.insts.length ∧
       (s.add_instance i).2.is_multisample = i.is_multisample ∧
       (s.add_instance i).2.is_rgb = i.is_rgb)) := by
  refine ⟨fun h => ?_, fun h => ?_, fun h hm => ?_, fun h => ?_⟩
  · simp [Series.add_instance, h, Instance.shape]
  · by_cases hm : (s.shape.2.1 = i.height ∧ s.shape.2.2 = i.width ∧
        s.is_multisample = i.is_multisample ∧ s.is_rgb = i.is_rgb)
    · simp [Series.add_instance, Instance.shape, h, hm]
    · simp only [Series.add_instance, Instance.shape] at *
      simp [h, hm]
  · simp [Series.add_instance, Instance.shape, h, hm]
  · by_cases hc : (s.num_slices = 0 ∨
        (s.shape.2.1 = i.height ∧ s.shape.2.2 = i.width ∧
         s.is_multisample = i.is_multisample ∧ s.is_rgb = i.is_rgb))
    · simp [Series.add_instance, Instance.shape, hc]
    · simp [Series.add_instance, Instance.shape, hc] at h

/-- C2 witness: on a series with slice count zero the amended theorem applies
and yields the successful insertion. -/
theorem C2_witness :
    emptySeries.add_instance mismInst =
      (.ok (), { emptySeries with
                   insts := setAdd emptySeries.insts mismInst,
                   shape := ((setAdd emptySeries.insts mismInst).length,
                             mismInst.height, mismInst.width),
                   is_multisample := mismInst.is_multisample,
                   is_rgb := mismInst.is_rgb }) :=
  (C2_add_instance emptySeries mismInst).1 rfl

/-- C3: the "temporarily load, read, restore" pattern is broken on the
lookup-miss path.  On an initially-unloaded standalone instance whose dataset
lacks the requested tag, `Instance.get_tag` raises `KeyError` before reaching
the restoring `unload`, leaving the instance loaded; `Series.get_tags` on an
initially-unloaded series likewise leaves the series loaded. -/
theorem C3_get_tag_leaves_loaded :
    soloInstU.loaded = false ∧
    (soloInstU.get_tag DicomTags.WindowWidth).1 = .error .keyError ∧
    ((soloInstU.get_tag DicomTags.WindowWidth).2).loaded = true ∧
    plainUnloaded.loaded = false ∧
    (plainUnloaded.get_tags DicomTags.WindowWidth).1 = .error .keyError ∧
    ((plainUnloaded.get_tags DicomTags.WindowWidth).2).loaded = true := by decide

/-- C4 counterexample: on an initially *loaded* series, `load()` followed by
`unload()` leaves the series unloaded — `loaded` is not restored to its prior
value, contrary to the claim's unrestricted round-trip statement. -/
theorem C4_counterexample :
    stackLoaded.loaded = true ∧ ((stackLoaded.load).unload).loaded = false := by decide

/-- C4 (amended): `load` on a loaded node and `unload` on an unloaded node
are no-ops (for series, standalone instances and frame instances); on an
initially-unloaded series holding no payload, `load` then `unload` restores
`loaded` to its prior value and leaves no cached payload; `load` of an
unloaded stack marks every frame-view loaded and `unload` of a loaded stack
marks every frame-view unloaded.  (On an initially-loaded node the round trip
ends unloaded instead.) -/
theorem C4_load_unload :
    (∀ s : Series, s.loaded = true → s.load = s) ∧
    (∀ s : Series, s.loaded = false → s.unload = s) ∧
    (∀ i : Instance, i.loaded = true → i.load = i) ∧
    (∀ i : Instance, i.loaded = false → i.unload = i) ∧
    (∀ (s : Series) (u : Nat) (i : Instance),
      s.insts.find? (fun x => x.uid = u) = some i → i.loaded = true →
      s.frame_load u = s) ∧
    (∀ (s : Series) (u : Nat) (i : Instance),
      s.insts.find? (fun x => x.uid = u) = some i → i.loaded = false →
      s.frame_unload u = s) ∧
    (∀ s : Series, s.loaded = false → ((s.load).unload).loaded = s.loaded) ∧
    (∀ s : Series, s.loaded = false → s.dicom = none → ((s.load).unload).dicom = none) ∧
    (∀ s : Series, s.is_stack = true → s.loaded = false →
      ∀ i ∈ (s.load).insts, i.loaded = true) ∧
    (∀ s : Series, s.is_stack = true → s.loaded = true →
      ∀ i ∈ (s.unload).insts, i.loaded = false) := by
  refine ⟨fun s h => by simp [Series.load, h],
          fun s h => by simp [Series.unload, h],
          fun i h => by simp [Instance.load, h],
          fun i h => by simp [Instance.unload, h],
          fun s u i hf hl => by simp [Series.frame_load, hf, hl],
          fun s u i hf hl => by simp [Series.frame_unload, hf, hl],
          fun s h => ?_, fun s h hd => ?_, fun s hst h i hi => ?_, fun s hst h i hi => ?_⟩
  · have h1 := Series.loaded_load s
    by_cases h2 : (s.load).is_stack <;> simp [Series.unload, h1, h2, h]
  · by_cases h2 : s.is_stack <;>
      simp [Series.load, Series.unload, h, h2, hd]
  · simp [Series.load, h, hst] at hi
    obtain ⟨x, _, rfl⟩ := hi
    rfl
  · simp [Series.unload, h, hst] at hi
    obtain ⟨x, _, rfl⟩ := hi
    rfl

/-- C4 witness: the no-op parts of the amended theorem applied to a concrete
loaded series. -/
theorem C4_witness : stackLoaded.load = stackLoaded :=
  C4_load_unload.1 stackLoaded rfl

/-- C8 counterexample: a freshly built stack has `num_slices = 5` but an empty
image set, so `get_tag(tag, 0)` raises `IndexError` although the instance
number 0 is below the slice count — refuting the claim's "if and only if". -/
theorem C8_counterexample :
    0 < freshStack.num_slices ∧
    (freshStack.get_tag DicomTags.WindowWidth 0).1 = .error .indexError := by decide

/-- C8 (amended): `Series.get_tag` raises `IndexError` when the instance
number reaches the slice count, and also when it reaches the (possibly
smaller) child count; below both bounds it proxies to the child at that
position in sort order. -/
theorem C8_get_tag_range (s : Series) (t : Nat) (n : Nat) :
    (s.num_slices ≤ n → s.get_tag t n = (.error .indexError, s)) ∧
    (n < s.num_slices → s.instances.length ≤ n →
      s.get_tag t n = (.error .indexError, s)) ∧
    (∀ i, n < s.num_slices → s.instances.get? n = some i →
      s.get_tag t n = s.inst_get_tag i.uid t) := by
  refine ⟨fun h => ?_, fun h hlen => ?_, fun i h hget => ?_⟩
  · simp [Series.get_tag, Nat.not_lt.mpr h]
  · have hnone : (sortInsts s.insts)[n]? = none :=
      List.getElem?_eq_none (by simpa [Series.instances] using hlen)
    simp [Series.get_tag, h, hnone]
  · have hget' : (sortInsts s.insts)[n]? = some i := by
      rw [← List.get?_eq_getElem?]
      simpa [Series.instances] using hget
    simp [Series.get_tag, h, hget']

/-- C8 witness: the out-of-range half of the amended theorem at a concrete
series and index. -/
theorem C8_witness : freshStack.get_tag DicomTags.WindowWidth 7 = (.error .indexError, freshStack) :=
  (C8_get_tag_range freshStack DicomTags.WindowWidth 7).1 (by decide)

/-- C9 counterexample: two studies with the same study id but different
patients compare equal under `Study.__eq__`, although their natural keys
(patient identity, study id) differ. -/
theorem C9_counterexample :
    Study.eqPy hf0 studyA (.study studyB) = true ∧
    (studyA.patient.patient_id, studyA.study_id) ≠
      (studyB.patient.patient_id, studyB.study_id) := by decide

/-- C9 (amended): two Patients compare equal exactly when their patient ids
match; two Studies compare equal exactly when their *study ids* match (the
patient is ignored by `Study.__eq__`, although it enters the identity string
and hence the hash); every node kind compares equal to a string exactly when
the string is its identity string, and to an integer exactly when the integer
is its hash. -/
theorem C9_equality (hf : String → Int) :
    (∀ p q : Patient, Patient.eqPy hf p (.patient q) = true ↔ p.patient_id = q.patient_id) ∧
    (∀ st su : Study, Study.eqPy hf st (.study su) = true ↔ st.study_id = su.study_id) ∧
    (∀ (p : Patient) (s : String), Patient.eqPy hf p (.str s) = true ↔ p.id_string = s) ∧
    (∀ (st : Study) (s : String), Study.eqPy hf st (.str s) = true ↔ st.id_string = s) ∧
    (∀ (sn : SeriesNode) (s : String),
      SeriesNode.eqPy hf sn (.str s) = true ↔ sn.id_string = s) ∧
    (∀ (i : InstanceNode) (s : String),
      InstanceNode.eqPy hf i (.str s) = true ↔ i.id_string = s) ∧
    (∀ (p : Patient) (n : Int), Patient.eqPy hf p (.int n) = true ↔ hf p.id_string = n) ∧
    (∀ (st : Study) (n : Int), Study.eqPy hf st (.int n) = true ↔ hf st.id_string = n) ∧
    (∀ (sn : SeriesNode) (n : Int),
      SeriesNode.eqPy hf sn (.int n) = true ↔ hf sn.id_string = n) ∧
    (∀ (i : InstanceNode) (n : Int),
      InstanceNode.eqPy hf i (.int n) = true ↔ hf i.id_string = n) := by
  refine ⟨fun p q => ?_, fun st su => ?_, fun p s => ?_, fun st s => ?_, fun sn s => ?_,
          fun i s => ?_, fun p n => ?_, fun st n => ?_, fun sn n => ?_, fun i n => ?_⟩ <;>
    simp [Patient.eqPy, Study.eqPy, SeriesNode.eqPy, InstanceNode.eqPy]

/-- C9 witness: the amended study-equality direction at the concrete studies. -/
theorem C9_witness : Study.eqPy hf0 studyA (.study studyB) = true :=
  ((C9_equality hf0).2.1 studyA studyB).mpr (by decide)

/-- C10: a non-stack series with no children fails in `raw_array` and `array`
with the `ValueError` that `np.concatenate` raises on an empty sequence,
rather than returning an empty array. -/
theorem C10_empty_concat (s : Series) (ccs : ColorConverter)
    (hns : s.is_stack = false) (hempty : s.insts = []) :
    (s.raw_array).1 = .error .valueError ∧ (s.array ccs).1 = .error .valueError := by
  by_cases h : s.loaded <;>
    simp [Series.raw_array, Series.array, Series.load, h, hns, hempty,
          sortInsts, Series.rawsGo, Series.arraysGo, npConcat]

/-- C10 witness: the empty non-stack series. -/
theorem C10_witness :
    (emptySeries.raw_array).1 = .error .valueError ∧
    (emptySeries.array ccs0).1 = .error .valueError :=
  C10_empty_concat emptySeries ccs0 rfl rfl

/-- C5: a frame instance with frame number `n` of a stack returns the owning
series' raw array indexed at position `n - 1` (0-based), wrapped as a single
slice; a standalone instance whose payload cannot be resolved returns the
all-zero `(1, 1, 1)` placeholder instead of failing. -/
theorem C5_frame_raw :
    (∀ (s : Series) (u : Nat) (i : Instance) (ds : Dataset)
       (fs : List (List (List ℚ))) (fn : Int) (f : List (List ℚ)),
      s.insts.find? (fun x => x.uid = u) = some i →
      i.loaded = true →
      i.frame_number = some fn →
      s.loaded = true →
      s.is_stack = true →
      s.dicom = some ds →
      ds.pixel_array = .d3 fs →
      1 ≤ fn →
      fs.get? (fn - 1).toNat = some f →
      (s.frame_raw_array u).1 = .ok (.d3 [f])) ∧
    (∀ j : Instance, j.is_frame = false → j.loaded = true → j.dicom = none →
      j.raw_array = (.ok npZeros111, j)) := by
  constructor
  · intro s u i ds fs fn f hfind hload hframe hsl hstack hdic hpix h1 hget
    have hlt : (fn - 1).toNat < fs.length := by
      have := List.get?_eq_some.mp hget
      exact this.1
    have hj : pyIdx fs.length (fn - 1) = some (fn - 1).toNat := by
      have h0 : ¬((fn - 1 : Int) < 0) := by omega
      have h2 : (0 : Int) ≤ fn - 1 := by omega
      have h3 : (fn - 1 : Int) < (fs.length : Int) := by omega
      simp [pyIdx, h0, h2, h3]
    have hget' : fs[fn.toNat - 1]? = some f := by
      rw [← List.get?_eq_getElem?]
      have he : fn.toNat - 1 = (fn - 1).toNat := by omega
      rw [he]
      exact hget
    simp [Series.frame_raw_array, hfind, hload, hframe, Series.raw_array,
          Series.load_of_loaded s hsl, hstack, hdic, hpix, NpArr.pyIndex, hj, hget', npWrap]
  · intro j _ hl hd
    simp [Instance.raw_array, Instance.load_eq_of_loaded j hl, hd]

/-- C5 witness: frame number 3 of a five-frame stack yields the third frame
wrapped as one slice; a payload-less loaded standalone instance yields the
zero placeholder. -/
theorem C5_witness :
    (stack5.frame_raw_array 1).1 = .ok (.d3 [[[3]]]) ∧
    soloGone.raw_array = (.ok npZeros111, soloGone) :=
  ⟨C5_frame_raw.1 stack5 1 frameInst5 ds5 [[[1]], [[2]], [[3]], [[4]], [[5]]] 3 [[3]]
      (by decide) (by decide) (by decide) (by decide) (by decide) (by decide)
      (by decide) (by decide) (by decide),
   C5_frame_raw.2 soloGone (by decide) (by decide) (by decide)⟩

/-- C6 counterexample: on an empty series (slice count 0, current slice 0) the
window tags fail with an *index* error, and `vmax` / `vmin` do not fall back
to the base default — they propagate the `IndexError`, contrary to the
claim's "index error falls back". -/
theorem C6_counterexample :
    (emptySeries.vmax).1 = .error .indexError ∧
    (emptySeries.vmin).1 = .error .indexError := by decide

/-- C6 (amended): when WindowCenter `c` and WindowWidth `w` resolve to
numbers for the current slice, `vmax = c + w/2`, `vmin = c - w/2`,
`window = w` and `level = c`; a missing tag (KeyError) and a wrong-type value
fall back to the base default for `vmax`, `vmin` and `window` (for `level` a
missing tag falls back, while a wrong-type value propagates), but an index
error propagates from `vmax` and `vmin`. -/
theorem C6_window_level (s : Series) (i : Instance) (w c : ℚ) (xs : List ℚ) :
    (s.get_tag DicomTags.WindowWidth s.current_slice = (.ok (some (.num w)), s) →
      s.get_tag DicomTags.WindowCenter s.current_slice = (.ok (some (.num c)), s) →
      s.vmax = (.ok (some (c + w / 2)), s) ∧
      s.vmin = (.ok (some (c - w / 2)), s) ∧
      s.window = (.ok (some w), s) ∧
      s.level = (.ok (some c), s)) ∧
    (s.get_tag DicomTags.WindowWidth s.current_slice = (.error .keyError, s) →
      s.vmax = (.ok s.base_vmax, s) ∧ s.vmin = (.ok s.base_vmin, s) ∧
      s.window = (.ok s.base_window, s)) ∧
    (s.get_tag DicomTags.WindowCenter s.current_slice = (.error .keyError, s) →
      s.level = (.ok s.base_level, s)) ∧
    (s.get_tag DicomTags.WindowWidth s.current_slice = (.ok (some (.pair xs)), s) →
      s.get_tag DicomTags.WindowCenter s.current_slice = (.ok (some (.num c)), s) →
      s.vmax = (.ok s.base_vmax, s) ∧ s.vmin = (.ok s.base_vmin, s) ∧
      s.window = (.ok s.base_window, s)) ∧
    (i.get_tag DicomTags.WindowWidth = (.ok (some (.num w)), i) →
      i.get_tag DicomTags.WindowCenter = (.ok (some (.num c)), i) →
      i.vmax = (.ok (some (c + w / 2)), i) ∧
      i.vmin = (.ok (some (c - w / 2)), i) ∧
      i.window = (.ok (some (.num w)), i) ∧
      i.level = (.ok (some (.num c)), i)) ∧
    (i.get_tag DicomTags.WindowWidth = (.error .keyError, i) →
      i.vmax = (.ok i.base_vmax, i) ∧ i.vmin = (.ok i.base_vmin, i) ∧
      i.window = (.ok (i.base_window.map .num), i)) ∧
    (i.get_tag DicomTags.WindowCenter = (.error .keyError, i) →
      i.level = (.ok (i.base_level.map .num), i)) := by
  refine ⟨fun hww hwc => ?_, fun hww => ?_, fun hwc => ?_, fun hww hwc => ?_,
          fun hww hwc => ?_, fun hww => ?_, fun hwc => ?_⟩
  · exact ⟨by simp [Series.vmax, hww, hwc, tvAddHalf],
           by simp [Series.vmin, hww, hwc, tvSubHalf],
           by simp [Series.window, hww, floatConv],
           by simp [Series.level, hwc, floatConv]⟩
  · exact ⟨by simp [Series.vmax, hww], by simp [Series.vmin, hww],
           by simp [Series.window, hww]⟩
  · simp [Series.level, hwc]
  · exact ⟨by simp [Series.vmax, hww, hwc, tvAddHalf],
           by simp [Series.vmin, hww, hwc, tvSubHalf],
           by simp [Series.window, hww, floatConv]⟩
  · exact ⟨by simp [Instance.vmax, hww, hwc, tvAddHalf],
           by simp [Instance.vmin, hww, hwc, tvSubHalf],
           by simp [Instance.window, hww],
           by simp [Instance.level, hwc]⟩
  · exact ⟨by simp [Instance.vmax, hww], by simp [Instance.vmin, hww],
           by simp [Instance.window, hww]⟩
  · simp [Instance.level, hwc]

/-- C6 witness: WindowWidth 400 and WindowCenter 40 give the formulas on a
concrete stack series. -/
theorem C6_witness :
    stackLoaded.vmax = (.ok (some ((40 : ℚ) + 400 / 2)), stackLoaded) ∧
    stackLoaded.vmin = (.ok (some ((40 : ℚ) - 400 / 2)), stackLoaded) ∧
    stackLoaded.window = (.ok (some (400 : ℚ)), stackLoaded) ∧
    stackLoaded.level = (.ok (some (40 : ℚ)), stackLoaded) :=
  (C6_window_level stackLoaded frameInst1 400 40 []).1 (by decide) (by decide)

/-- C7 counterexample: `Series.array` on a stack whose dataset lacks the
SamplesPerPixel tag propagates the `KeyError` — the accessor does raise for an
absent tag, contrary to the claim. -/
theorem C7_counterexample : (stackNoSPP.array ccs0).1 = .error .keyError := by decide

/-- C7 (amended): an *absent* tag (KeyError) never surfaces from the
window-level accessors or `pixel_size`: each returns its documented fallback
(the base default, or unit spacings).  The blanket claim fails elsewhere:
index errors propagate from `vmax`/`vmin`/`pixel_size`, a wrong-type value
propagates from `Series.level`, and `array` propagates a missing
SamplesPerPixel. -/
theorem C7_missing_tag_fallbacks (s : Series) (i : Instance) :
    (s.get_tag DicomTags.WindowWidth s.current_slice = (.error .keyError, s) →
      s.vmax = (.ok s.base_vmax, s) ∧ s.vmin = (.ok s.base_vmin, s) ∧
      s.window = (.ok s.base_window, s)) ∧
    (s.get_tag DicomTags.WindowCenter s.current_slice = (.error .keyError, s) →
      s.level = (.ok s.base_level, s)) ∧
    (s.get_tag DicomTags.PixelSpacing s.current_slice = (.error .keyError, s) →
      s.get_tag DicomTags.SliceThickness s.current_slice = (.error .keyError, s) →
      s.pixel_size = (.ok (.num 1, .num 1, .num 1), s)) ∧
    (i.get_tag DicomTags.WindowWidth = (.error .keyError, i) →
      i.vmax = (.ok i.base_vmax, i) ∧ i.vmin = (.ok i.base_vmin, i) ∧
      i.window = (.ok (i.base_window.map .num), i)) ∧
    (i.get_tag DicomTags.WindowCenter = (.error .keyError, i) →
      i.level = (.ok (i.base_level.map .num), i)) ∧
    (i.get_tag DicomTags.PixelSpacing = (.error .keyError, i) →
      i.get_tag DicomTags.SliceThickness = (.error .keyError, i) →
      i.pixel_size = (.ok (.num 1, .num 1, .num 1), i)) := by
  refine ⟨fun hww => ?_, fun hwc => ?_, fun hps hst => ?_,
          fun hww => ?_, fun hwc => ?_, fun hps hst => ?_⟩
  · exact ⟨by simp [Series.vmax, hww], by simp [Series.vmin, hww],
           by simp [Series.window, hww]⟩
  · simp [Series.level, hwc]
  · simp [Series.pixel_size, Series.pixel_size_rest, hps, hst, pixelSizeSub,
          TagValue.subscript]
  · exact ⟨by simp [Instance.vmax, hww], by simp [Instance.vmin, hww],
           by simp [Instance.window, hww]⟩
  · simp [Instance.level, hwc]
  · simp [Instance.pixel_size, Instance.pixel_size_rest, hps, hst, pixelSizeSub,
          TagValue.subscript]

/-- C7 witness: a stack with no window or spacing tags and a standalone
instance with no window or spacing tags all degrade to the documented
fallbacks. -/
theorem C7_witness :
    (stackNoResc.vmax = (.ok stackNoResc.base_vmax, stackNoResc) ∧
     stackNoResc.vmin = (.ok stackNoResc.base_vmin, stackNoResc) ∧
     stackNoResc.window = (.ok stackNoResc.base_window, stackNoResc)) ∧
    stackNoResc.level = (.ok stackNoResc.base_level, stackNoResc) ∧
    stackNoResc.pixel_size = (.ok (.num 1, .num 1, .num 1), stackNoResc) ∧
    soloNoResc.window = (.ok (soloNoResc.base_window.map .num), soloNoResc) :=
  ⟨(C7_missing_tag_fallbacks stackNoResc soloNoResc).1 (by decide),
   (C7_missing_tag_fallbacks stackNoResc soloNoResc).2.1 (by decide),
   (C7_missing_tag_fallbacks stackNoResc soloNoResc).2.2.1 (by decide) (by decide),
   ((C7_missing_tag_fallbacks stackNoResc soloNoResc).2.2.2.1 (by decide)).2.2⟩

theorem child_raw_eq (i : Instance) (fr : List (List ℚ)) (sl ic : ℚ)
    (h : RescaleChild sl ic i fr) : i.raw_array = (.ok (.d3 [fr]), i) := by
  obtain ⟨_, hl, ⟨ds, hdic, hpix⟩, _, _, _⟩ := h
  simp [Instance.raw_array, Instance.load_eq_of_loaded i hl, hdic, hpix, npWrap]

theorem child_array_eq (ccs : ColorConverter) (i : Instance) (fr : List (List ℚ)) (sl ic : ℚ)
    (h : RescaleChild sl ic i fr) : i.array ccs = (.ok (.d3 [scale2 sl ic fr]), i) := by
  have hraw := child_raw_eq i fr sl ic h
  obtain ⟨_, hl, ⟨ds, hdic, hpix⟩, hsp, hslo, hint⟩ := h
  simp [Instance.array, Instance.load_eq_of_loaded i hl, hraw, hsp, hslo, hint, scaleOp,
        NpArr.astype, NpArr.scale, scale2]

theorem rawsGo_eq (sl ic : ℚ) (us : List Nat) (s : Series) (frames : List (List (List ℚ)))
    (h : FramesOf sl ic s us frames) :
    Series.rawsGo us s = (.ok (frames.map (fun fr => NpArr.d3 [fr])), s) := by
  induction h with
  | nil => rfl
  | cons hfind hchild hset _ ih =>
    have hraw := child_raw_eq _ _ _ _ hchild
    simp [Series.rawsGo, hfind, hchild.1, hraw, hset, ih]

theorem arraysGo_eq (ccs : ColorConverter) (sl ic : ℚ) (us : List Nat) (s : Series)
    (frames : List (List (List ℚ))) (h : FramesOf sl ic s us frames) :
    Series.arraysGo ccs us s =
      (.ok (frames.map (fun fr => NpArr.d3 [scale2 sl ic fr])), s) := by
  induction h with
  | nil => rfl
  | cons hfind hchild hset _ ih =>
    have harr := child_array_eq ccs _ _ _ _ hchild
    simp [Series.arraysGo, hfind, hchild.1, harr, hset, ih]

theorem topsD3_map (l : List (List (List ℚ))) :
    topsD3 (l.map (fun fr => NpArr.d3 [fr])) = some l := by
  induction l with
  | nil => rfl
  | cons fr rest ih => simp [topsD3, ih]

theorem npConcat_d3 (l : List (List (List ℚ))) (h : l ≠ []) :
    npConcat (l.map (fun fr => NpArr.d3 [fr])) = .ok (.d3 l) := by
  cases l with
  | nil => exact absurd rfl h
  | cons fr rest =>
    have h3 : topsD3 (rest.map (fun fr => NpArr.d3 [fr])) = some rest := topsD3_map rest
    simp [npConcat, topsD1, topsD2, topsD3, h3]

/-- C1: for a stack Series whose representative first-slice tags give
SamplesPerPixel 1, and for a standalone Instance whose dataset gives
SamplesPerPixel 1, the `array` accessor is the float-widened `raw_array`
times RescaleSlope plus RescaleIntercept when both tags resolve, and exactly
the float-widened `raw_array` when either of them is absent; for a non-stack
Series all of whose children carry the same slope and intercept, the same
relation holds for the concatenated arrays. -/
theorem C1_array_rescale :
    (∀ (ccs : ColorConverter) (s : Series) (ds : Dataset) (sl ic : ℚ),
      (s.load).is_stack = true →
      (s.load).dicom = some ds →
      (s.load).get_tag DicomTags.SamplesPerPixel 0 = (.ok (some (.num 1)), s.load) →
      (s.load).get_tag DicomTags.RescaleSlope 0 = (.ok (some (.num sl)), s.load) →
      (s.load).get_tag DicomTags.RescaleIntercept 0 = (.ok (some (.num ic)), s.load) →
      (s.array ccs).1 = .ok ((ds.pixel_array.astype).scale sl ic)) ∧
    (∀ (ccs : ColorConverter) (s : Series) (ds : Dataset),
      (s.load).is_stack = true →
      (s.load).dicom = some ds →
      (s.load).get_tag DicomTags.SamplesPerPixel 0 = (.ok (some (.num 1)), s.load) →
      (s.load).get_tag DicomTags.RescaleSlope 0 = (.error .keyError, s.load) →
      (s.array ccs).1 = .ok ds.pixel_array.astype) ∧
    (∀ (ccs : ColorConverter) (s : Series) (ds : Dataset) (sl : ℚ),
      (s.load).is_stack = true →
      (s.load).dicom = some ds →
      (s.load).get_tag DicomTags.SamplesPerPixel 0 = (.ok (some (.num 1)), s.load) →
      (s.load).get_tag DicomTags.RescaleSlope 0 = (.ok (some (.num sl)), s.load) →
      (s.load).get_tag DicomTags.RescaleIntercept 0 = (.error .keyError, s.load) →
      (s.array ccs).1 = .ok ds.pixel_array.astype) ∧
    (∀ (ccs : ColorConverter) (i : Instance) (ds : Dataset) (fr : List (List ℚ)) (sl ic : ℚ),
      (i.load).dicom = some ds →
      ds.pixel_array = .d2 fr →
      (i.load).get_tag DicomTags.SamplesPerPixel = (.ok (some (.num 1)), i.load) →
      (i.load).get_tag DicomTags.RescaleSlope = (.ok (some (.num sl)), i.load) →
      (i.load).get_tag DicomTags.RescaleIntercept = (.ok (some (.num ic)), i.load) →
      (i.array ccs).1 = .ok ((NpArr.d3 [fr]).astype.scale sl ic)) ∧
    (∀ (ccs : ColorConverter) (i : Instance) (ds : Dataset) (fr : List (List ℚ)),
      (i.load).dicom = some ds →
      ds.pixel_array = .d2 fr →
      (i.load).get_tag DicomTags.SamplesPerPixel = (.ok (some (.num 1)), i.load) →
      (i.load).get_tag DicomTags.RescaleSlope = (.error .keyError, i.load) →
      (i.array ccs).1 = .ok (NpArr.d3 [fr]).astype) ∧
    (∀ (ccs : ColorConverter) (i : Instance) (ds : Dataset) (fr : List (List ℚ)) (sl : ℚ),
      (i.load).dicom = some ds →
      ds.pixel_array = .d2 fr →
      (i.load).get_tag DicomTags.SamplesPerPixel = (.ok (some (.num 1)), i.load) →
      (i.load).get_tag DicomTags.RescaleSlope = (.ok (some (.num sl)), i.load) →
      (i.load).get_tag DicomTags.RescaleIntercept = (.error .keyError, i.load) →
      (i.array ccs).1 = .ok (NpArr.d3 [fr]).astype) ∧
    (∀ (ccs : ColorConverter) (s : Series) (sl ic : ℚ) (frames : List (List (List ℚ))),
      (s.load).is_stack = false →
      FramesOf sl ic (s.load) ((sortInsts (s.load).insts).map (fun x => x.uid)) frames →
      frames ≠ [] →
      (s.raw_array).1 = .ok (.d3 frames) ∧
      (s.array ccs).1 = .ok (((NpArr.d3 frames).astype).scale sl ic)) := by
  refine ⟨fun ccs s ds sl ic hstack hdic hsp hsl hic => ?_,
          fun ccs s ds hstack hdic hsp hsl => ?_,
          fun ccs s ds sl hstack hdic hsp hsl hic => ?_,
          fun ccs i ds fr sl ic hdic hpix hsp hsl hic => ?_,
          fun ccs i ds fr hdic hpix hsp hsl => ?_,
          fun ccs i ds fr sl hdic hpix hsp hsl hic => ?_,
          fun ccs s sl ic frames hstack hfr hne => ?_⟩
  · simp [Series.array, hstack, Series.raw_array, Series.load_idem, hdic, hsp, hsl, hic,
          scaleOp]
  · simp [Series.array, hstack, Series.raw_array, Series.load_idem, hdic, hsp, hsl]
  · simp [Series.array, hstack, Series.raw_array, Series.load_idem, hdic, hsp, hsl, hic]
  · simp [Instance.array, Instance.raw_array, Instance.load_load_eq, hdic, hpix, npWrap,
          hsp, hsl, hic, scaleOp]
  · simp [Instance.array, Instance.raw_array, Instance.load_load_eq, hdic, hpix, npWrap,
          hsp, hsl]
  · simp [Instance.array, Instance.raw_array, Instance.load_load_eq, hdic, hpix, npWrap,
          hsp, hsl, hic]
  · have hraws := rawsGo_eq sl ic _ _ _ hfr
    have harrs := arraysGo_eq ccs sl ic _ _ _ hfr
    have hconc := npConcat_d3 frames hne
    have hconc2 : npConcat (frames.map (fun fr => NpArr.d3 [scale2 sl ic fr])) =
        .ok (.d3 (frames.map (scale2 sl ic))) := by
      have hm : frames.map (fun fr => NpArr.d3 [scale2 sl ic fr]) =
          (frames.map (scale2 sl ic)).map (fun fr => NpArr.d3 [fr]) := by
        simp [List.map_map]
      rw [hm]
      exact npConcat_d3 _ (by simpa using hne)
    constructor
    · simp [Series.raw_array, hstack, hraws, hconc]
    · have hmid : (s.array ccs).1 = .ok (NpArr.d3 (frames.map (scale2 sl ic))) := by
        simp [Series.array, hstack, harrs, hconc2]
      rw [hmid]
      simp [NpArr.astype, NpArr.scale, scale2]

/-- C1 witness: RescaleSlope 2 and RescaleIntercept -100 over a raw pixel 150
on a stack series and on a standalone instance; the same pair with the tags
absent leaves the widened raw array unchanged; and the non-stack
concatenation case with one child. -/
theorem C1_witness :
    (stackLoaded.array ccs0).1 = .ok ((dsRescale.pixel_array.astype).scale 2 (-100)) ∧
    (stackNoResc.array ccs0).1 = .ok dsNoTags.pixel_array.astype ∧
    (soloRescale.array ccs0).1 = .ok ((NpArr.d3 [[[150]]]).astype.scale 2 (-100)) ∧
    (soloNoResc.array ccs0).1 = .ok (NpArr.d3 [[[150]]]).astype ∧
    (plainRescale.raw_array).1 = .ok (.d3 [[[150]]]) ∧
    (plainRescale.array ccs0).1 = .ok (((NpArr.d3 [[[150]]]).astype).scale 2 (-100)) := by
  have hF : FramesOf 2 (-100) plainRescale.load
      ((sortInsts plainRescale.load.insts).map (fun x => x.uid)) [[[150]]] := by
    have e1 : plainRescale.load = plainRescale := by decide
    rw [e1]
    have e2 : (sortInsts plainRescale.insts).map (fun x => x.uid) = [4] := by decide
    rw [e2]
    exact @FramesOf.cons 2 (-100) plainRescale 4 [] [[150]] [] soloRescale (by decide)
      ⟨by decide, by decide, ⟨dsSoloRescale, by decide, by decide⟩,
       by decide, by decide, by decide⟩
      (by decide) FramesOf.nil
  exact ⟨C1_array_rescale.1 ccs0 stackLoaded dsRescale 2 (-100)
      (by decide) (by decide) (by decide) (by decide) (by decide),
    C1_array_rescale.2.1 ccs0 stackNoResc dsNoTags
      (by decide) (by decide) (by decide) (by decide),
    C1_array_rescale.2.2.2.1 ccs0 soloRescale dsSoloRescale [[150]] 2 (-100)
      (by decide) (by decide) (by decide) (by decide) (by decide),
    C1_array_rescale.2.2.2.2.1 ccs0 soloNoResc dsSoloNoResc [[150]]
      (by decide) (by decide) (by decide) (by decide),
    (C1_array_rescale.2.2.2.2.2.2 ccs0 plainRescale 2 (-100) [[[150]]]
      (by decide) hF (by decide)).1,
    (C1_array_rescale.2.2.2.2.2.2 ccs0 plainRescale 2 (-100) [[[150]]]
      (by decide) hF (by decide)).2⟩

end Pumpia
